import Mathlib

/-!
Verification of the reflectance_measure core against its specification.

The development shallowly embeds the two components the claims are about:

* the motion-controller client (class Stage in stage/stage_utils.py,
  together with TimeStampedDict and ESP301_Connection), and
* the sweep orchestrator (ExperimentAutomation.do_measurement in
  automation.py).

Serial transport is modelled as a response function from command strings to
byte lists; wall-clock time is modelled as an explicit rational argument.
Python exceptions are modelled by an error type and Except results; state
mutations that happen before an exception is raised are preserved in the
returned state, as in Python.
-/

namespace ReflectanceMeasure

/-- Byte strings (Python bytes) as lists of byte values. -/
abbrev Bytes := List Nat

/-- Python int.from_bytes with the default big-endian byte order
(used by bool.from_bytes and int.from_bytes in the source). -/
def bytesToNat (bs : Bytes) : Nat :=
  bs.foldl (fun a b => a * 256 + b) 0

/-- ASCII lower-casing of one byte (Python bytes.lower, per byte). -/
def byteLower (b : Nat) : Nat :=
  if 65 ≤ b ∧ b ≤ 90 then b + 32 else b

/-- Python bytes.lower. -/
def bytesLower (bs : Bytes) : Bytes := bs.map byteLower

/-- The ASCII bytes of the identity response "unknown". -/
def unknownBytes : Bytes := [117, 110, 107, 110, 111, 119, 110]

/-- The Python exception classes that the embedded code can raise.
The spec failure taxonomy maps onto them as follows: NotReady and
DeviceNotFound are RuntimeError with distinct messages, InvalidArgument is
ValueError or TypeError, transport failures are IOError. -/
inductive PyErr
  | runtimeError (msg : String)
  | valueError (msg : String)
  | typeError (msg : String)
  | keyError (key : String)
  | ioError (msg : String)
  deriving DecidableEq

/-- The response cache: TimeStampedDict maps a command string to the pair
of the stored response and the timestamp of when it was set. -/
abbrev Cache := List (String × (Bytes × ℚ))

/-- TimeStampedDict.__setitem__: store the value paired with the current
time (replacing any previous entry for the key). -/
def tsdSet (c : Cache) (k : String) (v : Bytes) (now : ℚ) : Cache :=
  (k, (v, now)) :: c.filter (fun p => !(p.1 == k))

/-- TimeStampedDict.__getitem__: return the stored (value, timestamp) pair,
or (None, 0) when the key was never set. -/
def tsdGet (c : Cache) (k : String) : Option Bytes × ℚ :=
  match c.lookup k with
  | some (v, ts) => (some v, ts)
  | none => (none, 0)

/-- Deletion on TimeStampedDict: the class overrides __getitem__ but not
__delitem__, so del on an absent key raises KeyError, as for a plain dict. -/
def tsdDel (c : Cache) (k : String) : Except PyErr Cache :=
  if c.any (fun p => p.1 == k) then
    .ok (c.filter (fun p => !(p.1 == k)))
  else
    .error (.keyError k)

/-- ESP301_Connection: a serial line to the controller.  The strict
request/reply protocol is modelled by the response function device, giving
the byte response (CRLF already stripped) to each command string; isOpen
tracks whether the OS resource is held. -/
structure ESP301_Connection where
  device : String → Bytes
  isOpen : Bool

/-- Serial.close: release the OS resource. -/
def ESP301_Connection.close (c : ESP301_Connection) : ESP301_Connection :=
  { c with isOpen := false }

/-- The Stage client state: optional connection, optional bound axis,
response cache and its time-to-live (cache_timeout, default 0.1 s). -/
structure Stage where
  connection : Option ESP301_Connection
  axis : Option Nat
  cache : Cache
  cache_timeout : ℚ

/-- Result of one Stage method call: the Python return value or raised
exception, the state of the object when the call returned or raised, and
the transcript of command strings actually sent over the serial line. -/
structure StageRes (α : Type) where
  result : Except PyErr α
  stage : Stage
  sent : List String

/-- The bound axis number, to be read only after connection_check. -/
def Stage.axisD (st : Stage) : Nat := st.axis.getD 0

/-- Stage.connection_check: raises RuntimeError when the connection or the
axis is not set. -/
def Stage.connection_check (st : Stage) : Option PyErr :=
  if st.connection.isNone then some (.runtimeError "No connection set")
  else if st.axis.isNone then some (.runtimeError "No axis set")
  else none

/-- Stage._cached_command: serve the cached response while its age is
below cache_timeout, otherwise do a fresh round-trip and store the
response with the current timestamp.  Callers guarantee a connection. -/
def Stage.cached_command (st : Stage) (cmd : String) (now : ℚ) :
    StageRes (Option Bytes) :=
  match st.connection with
  | none => ⟨.error (.runtimeError "no connection"), st, []⟩
  | some conn =>
      let (cached_resp, timestamp) := tsdGet st.cache cmd
      if st.cache_timeout ≤ now - timestamp then
        let resp := conn.device cmd
        ⟨.ok (some resp), { st with cache := tsdSet st.cache cmd resp now },
          [cmd]⟩
      else
        ⟨.ok cached_resp, st, []⟩

/-- Stage.enable: send an axis motor-on or motor-off command, then evict
the cached is-enabled query with del (which raises KeyError when the entry
is absent, see tsdDel). -/
def Stage.enable (st : Stage) (en : Bool) : StageRes Unit :=
  match st.connection_check with
  | some e => ⟨.error e, st, []⟩
  | none =>
      let sent := [toString st.axisD ++ "M" ++ (if en then "O" else "F")]
      match tsdDel st.cache (toString st.axisD ++ "MO?") with
      | .ok c => ⟨.ok (), { st with cache := c }, sent⟩
      | .error e => ⟨.error e, st, sent⟩

/-- Stage.disable. -/
def Stage.disable (st : Stage) (dis : Bool) : StageRes Unit :=
  st.enable (!dis)

/-- Stage.enabled: cached is-enabled query; the response bytes are turned
into a Bool by bool.from_bytes, i.e. big-endian integer truthiness
(TypeError when the served value is None). -/
def Stage.enabled (st : Stage) (now : ℚ) : StageRes Bool :=
  match st.connection_check with
  | some e => ⟨.error e, st, []⟩
  | none =>
      let r := st.cached_command (toString st.axisD ++ "MO?") now
      match r.result with
      | .error e => ⟨.error e, r.stage, r.sent⟩
      | .ok none => ⟨.error (.typeError "from_bytes on None"), r.stage, r.sent⟩
      | .ok (some bs) => ⟨.ok (bytesToNat bs != 0), r.stage, r.sent⟩

/-- Stage.goto_home: send the find-reference command, then evict the
cached busy query with del (KeyError when absent). -/
def Stage.goto_home (st : Stage) : StageRes Unit :=
  match st.connection_check with
  | some e => ⟨.error e, st, []⟩
  | none =>
      let sent := [toString st.axisD ++ "OR"]
      match tsdDel st.cache "TS" with
      | .ok c => ⟨.ok (), { st with cache := c }, sent⟩
      | .error e => ⟨.error e, st, sent⟩

/-- Stage.is_busy: cached status-word query; the bit at position
(axis - 1) of the big-endian integer value of the response. -/
def Stage.is_busy (st : Stage) (now : ℚ) : StageRes Bool :=
  match st.connection_check with
  | some e => ⟨.error e, st, []⟩
  | none =>
      let r := st.cached_command "TS" now
      match r.result with
      | .error e => ⟨.error e, r.stage, r.sent⟩
      | .ok none => ⟨.error (.typeError "from_bytes on None"), r.stage, r.sent⟩
      | .ok (some bs) =>
          ⟨.ok ((bytesToNat bs >>> (st.axisD - 1)) &&& 1 != 0), r.stage, r.sent⟩

/-- Zero-padded four-digit rendering used by formatFixed4. -/
def padLeft4 (s : String) : String :=
  String.mk (List.replicate (4 - s.length) '0') ++ s

/-- The positioning argument rendered with four decimal digits, the
Python format spec .4f (decimal rounding idealized on exact rationals). -/
def formatFixed4 (q : ℚ) : String :=
  let n : Int := round (q * 10000)
  (if n < 0 then "-" else "") ++ toString (n.natAbs / 10000) ++ "." ++
    padLeft4 (toString (n.natAbs % 10000))

/-- Stage.goto_position: send the absolute-move command, then evict the
cached busy query with del (KeyError when absent). -/
def Stage.goto_position (st : Stage) (pos : ℚ) : StageRes Unit :=
  match st.connection_check with
  | some e => ⟨.error e, st, []⟩
  | none =>
      let sent := [toString st.axisD ++ "PA" ++ formatFixed4 pos]
      match tsdDel st.cache "TS" with
      | .ok c => ⟨.ok (), { st with cache := c }, sent⟩
      | .error e => ⟨.error e, st, sent⟩

/-- Stage.stop: send the immediate-stop command, then evict the cached
busy query with del (KeyError when absent). -/
def Stage.stop (st : Stage) : StageRes Unit :=
  match st.connection_check with
  | some e => ⟨.error e, st, []⟩
  | none =>
      let sent := [toString st.axisD ++ "ST"]
      match tsdDel st.cache "TS" with
      | .ok c => ⟨.ok (), { st with cache := c }, sent⟩
      | .error e => ⟨.error e, st, sent⟩

/-- Stage.set_axis: unbind the axis, then check the connection, then the
range 1..3, then probe the axis identity and reject a response whose
lower-casing is "unknown"; on success store the axis number.  The response
cache is not touched on any path. -/
def Stage.set_axis (st : Stage) (axis_number : Int) : StageRes Unit :=
  let st0 : Stage := { st with axis := none }
  match st0.connection with
  | none =>
      ⟨.error (.runtimeError "no connection set. cannot set the requested axis"),
        st0, []⟩
  | some conn =>
      if 1 ≤ axis_number ∧ axis_number ≤ 3 then
        let cmd := toString axis_number ++ "ID?"
        let resp := conn.device cmd
        if bytesLower resp = unknownBytes then
          ⟨.error (.runtimeError "No such axis available"), st0, [cmd]⟩
        else
          ⟨.ok (), { st0 with axis := some axis_number.toNat }, [cmd]⟩
      else
        ⟨.error (.valueError "axis number must be between 1 and 3"), st0, []⟩

/-- Stage.close: try stop() then disable(); except RuntimeError: pass;
finally clear the axis (when truthy) and close the serial port (the
connection reference and the cache are not cleared).  Exceptions of other
classes raised in the try block propagate after the finally block runs. -/
def Stage.close (st : Stage) : StageRes Unit :=
  let r1 := st.stop
  let tryOut : Stage × List String × Option PyErr :=
    match r1.result with
    | .ok _ =>
        let r2 := r1.stage.disable true
        (r2.stage, r1.sent ++ r2.sent,
          match r2.result with
          | .ok _ => none
          | .error e => some e)
    | .error e => (r1.stage, r1.sent, some e)
  let residual : Option PyErr :=
    match tryOut.2.2 with
    | some (.runtimeError _) => none
    | o => o
  let fin : Stage :=
    { tryOut.1 with
      axis := match tryOut.1.axis with
        | some (_ + 1) => none
        | a => a,
      connection := tryOut.1.connection.map ESP301_Connection.close }
  ⟨match residual with
   | none => .ok ()
   | some e => .error e, fin, tryOut.2.1⟩

/-!
The sweep orchestrator (ExperimentAutomation.do_measurement).

The orchestrator drives the stage and the DAQ through their public calls;
following the spec, these collaborators are abstracted by an environment
giving, per call, the returned value, an optionally injected exception
(any failure of the stage or sampling collaborator), and the wall-clock
duration of the call.  The Qt signals of the source are recorded as ghost
events in the run trace: sample corresponds to sig_measurement_added,
finished to sig_measurement_finished and failed to sig_measurement_failed.
-/

/-- Observable events of one sweep run. checkpoint carries the wall-clock
time of the write and the data written (the full measurement list). -/
inductive Event
  | enabledQ (r : Bool)
  | enableCmd
  | home
  | move (pos : ℚ)
  | poll (busy : Bool)
  | sample (angle value : ℚ)
  | checkpoint (t : ℚ) (data : List (ℚ × ℚ))
  | finished
  | failed (e : PyErr)
  deriving DecidableEq

/-- The sweep parameters of ExperimentAutomation (save_file abstracts the
optional checkpoint path to whether one is configured). -/
structure Params where
  start_angle : ℚ
  end_angle : ℚ
  increment_angle : ℚ
  nb_measurements : Nat
  measurement_interval : ℚ
  save_file : Bool

/-- The collaborator environment of one run: fail injects the exception
raised by the collaborator call at a given call index (none = the call
returns), enabledRes and daqRes give returned values per call index,
busyCount gives, per wait_until_done invocation, how many busy polls
report motion before the stage is idle, opDur gives the wall-clock
duration of each call, and poll_interval is the fixed sleep between busy
polls. -/
structure Env where
  fail : Nat → Option PyErr
  enabledRes : Nat → Bool
  daqRes : Nat → ℚ
  busyCount : Nat → Nat
  opDur : Nat → ℚ
  poll_interval : ℚ

/-- The mutable state of one run: wall-clock time t, collaborator call
index k, wait invocation index w, the measurements list of the
orchestrator, and the ghost event trace. -/
structure RunState where
  t : ℚ
  k : Nat
  w : Nat
  meas : List (ℚ × ℚ)
  tr : List Event

/-- A fresh run state at wall-clock time t0. -/
def initRun (t0 : ℚ) : RunState := ⟨t0, 0, 0, [], []⟩

/-- Advance past one collaborator call: time passes, the call index moves
on. -/
def tick (env : Env) (s : RunState) : RunState :=
  { s with t := s.t + env.opDur s.k, k := s.k + 1 }

/-- Record one ghost event. -/
def emit (s : RunState) (e : Event) : RunState :=
  { s with tr := s.tr ++ [e] }

/-- One collaborator call that records event ev on success and raises the
injected exception otherwise. -/
def opCall (env : Env) (s : RunState) (ev : Event) :
    RunState × Option PyErr :=
  match env.fail s.k with
  | some e => (tick env s, some e)
  | none => (tick env (emit s ev), none)

/-- The stage.enabled() call of the orchestrator. -/
def stage_enabled (env : Env) (s : RunState) :
    (RunState × Option PyErr) × Bool :=
  (opCall env s (.enabledQ (env.enabledRes s.k)), env.enabledRes s.k)

/-- The stage.enable() call. -/
def stage_enable (env : Env) (s : RunState) : RunState × Option PyErr :=
  opCall env s .enableCmd

/-- The stage.goto_home() call. -/
def stage_goto_home (env : Env) (s : RunState) : RunState × Option PyErr :=
  opCall env s .home

/-- The stage.goto_position(pos) call. -/
def stage_goto_position (env : Env) (s : RunState) (pos : ℚ) :
    RunState × Option PyErr :=
  opCall env s (.move pos)

/-- The daq.read_channel() call (the sample event is emitted by the
orchestrator after appending, not by this call). -/
def daq_read_channel (env : Env) (s : RunState) :
    (RunState × Option PyErr) × ℚ :=
  ((match env.fail s.k with
    | some e => (tick env s, some e)
    | none => (tick env s, none)), env.daqRes s.k)

/-- Modelled from the spec: Stage.wait_until_done is called by
do_measurement but absent from the sources; the spec describes it as
blocking by busy-polling isBusy() at a fixed short interval until it
returns false.  This loop performs the remaining busy polls: one poll per
step, sleeping poll_interval after each poll that reports motion, until a
poll reports idle; any exception raised by a poll propagates. -/
def wait_polls (env : Env) : Nat → RunState → RunState × Option PyErr
  | 0, s =>
      (match env.fail s.k with
       | some e => (tick env s, some e)
       | none => (tick env (emit s (.poll false)), none))
  | n + 1, s =>
      (match env.fail s.k with
       | some e => (tick env s, some e)
       | none =>
          let s1 := tick env (emit s (.poll true))
          wait_polls env n { s1 with t := s1.t + env.poll_interval })

/-- Modelled from the spec: Stage.wait_until_done, the busy-poll loop, for
the w-th wait of the run; the environment says how many polls report
motion before the stage is idle. -/
def wait_until_done (env : Env) (s : RunState) : RunState × Option PyErr :=
  wait_polls env (env.busyCount s.w) { s with w := s.w + 1 }

/-- numpy.arange on exact rationals: the values start + k * step for
0 ≤ k < ceil((stop - start) / step). -/
def np_arange (start stop step : ℚ) : List ℚ :=
  (List.range (Int.ceil ((stop - start) / step)).toNat).map
    (fun k : ℕ => start + (k : ℚ) * step)

/-- The angle sequence of do_measurement:
numpy.arange(start_angle, end_angle + increment_angle / 10,
increment_angle). -/
def measurement_angles (start_angle end_angle increment_angle : ℚ) :
    List ℚ :=
  np_arange start_angle (end_angle + increment_angle / 10) increment_angle

/-- The inner measurement loop at one angle: the remaining reads; each
read appends (angle, value) to the measurements and emits the
sample-added signal, and sleeps measurement_interval when further reads
remain at this angle. -/
def measure_loop (env : Env) (p : Params) (a : ℚ) :
    Nat → RunState → RunState × Option PyErr
  | 0, s => (s, none)
  | rem + 1, s =>
      match daq_read_channel env s with
      | ((s1, some e), _) => (s1, some e)
      | ((s1, none), v) =>
          let s2 := emit { s1 with meas := s1.meas ++ [(a, v)] } (.sample a v)
          let s3 :=
            if rem ≠ 0 then { s2 with t := s2.t + p.measurement_interval }
            else s2
          measure_loop env p a rem s3

/-- Python exception sequencing: run the continuation only when the
preceding statement did not raise; a raised exception propagates with the
state it left behind. -/
def andThen (acc : RunState × Option PyErr)
    (f : RunState → RunState × Option PyErr) : RunState × Option PyErr :=
  match acc with
  | (s, some e) => (s, some e)
  | (s, none) => f s

/-- The checkpoint statement at the end of one angle iteration: persist
the full measurement list when a save file is configured and more than
one second has passed since last_save_time (which the source never
updates after a write). -/
def checkpoint_write (p : Params) (last_save_time : ℚ) (s : RunState) :
    RunState × Option PyErr :=
  if p.save_file ∧ s.t - last_save_time > 1 then
    (emit s (.checkpoint s.t s.meas), none)
  else (s, none)

/-- The body of one angle iteration: goto_position(-angle), wait until
done, take the readings, then the checkpoint statement. -/
def angle_step (env : Env) (p : Params) (last_save_time : ℚ)
    (s : RunState) (a : ℚ) : RunState × Option PyErr :=
  andThen (stage_goto_position env s (-a)) (fun s1 =>
  andThen (wait_until_done env s1) (fun s2 =>
  andThen (measure_loop env p a p.nb_measurements s2) (fun s3 =>
  checkpoint_write p last_save_time s3)))

/-- One fold step of the angle loop: a pending exception skips the rest
of the loop, otherwise the next angle iteration runs. -/
def sweep_step (env : Env) (p : Params) (last_save_time : ℚ)
    (acc : RunState × Option PyErr) (a : ℚ) : RunState × Option PyErr :=
  match acc with
  | (s', some e) => (s', some e)
  | (s', none) => angle_step env p last_save_time s' a

/-- The for-loop over the angle sequence, aborting at the first raised
exception. -/
def sweep_loop (env : Env) (p : Params) (last_save_time : ℚ)
    (angles : List ℚ) (s : RunState) : RunState × Option PyErr :=
  angles.foldl (sweep_step env p last_save_time) (s, none)

/-- Steps two to five of do_measurement, entered once the stage is known
stationary: reset the measurements, compute the angle sequence, record
last_save_time once (never updated afterwards), and run the angle loop. -/
def sweep_phase (env : Env) (p : Params) (s4 : RunState) :
    RunState × Option PyErr :=
  let s5 : RunState := { s4 with meas := [] }
  let angles := measurement_angles p.start_angle p.end_angle
    p.increment_angle
  let last_save_time := s5.t
  sweep_loop env p last_save_time angles s5

/-- Steps one to five of do_measurement: enable the motor when the
enabled query reports false, home when requested, wait until the stage is
stationary, then the sweep phase. -/
def do_measurement_core (env : Env) (p : Params) (homing : Bool)
    (s : RunState) : RunState × Option PyErr :=
  let q1 := stage_enabled env s
  andThen q1.1 (fun s1 =>
  andThen (if q1.2 then (s1, none) else stage_enable env s1) (fun s2 =>
  andThen (if homing then stage_goto_home env s2 else (s2, none)) (fun s3 =>
  andThen (wait_until_done env s3) (fun s4 =>
  sweep_phase env p s4))))

/-- The body of ExperimentAutomation.do_measurement: the core steps
followed, on completion of all angles, by the finished signal. -/
def do_measurement_body (env : Env) (p : Params) (homing : Bool)
    (s : RunState) : RunState × Option PyErr :=
  andThen (do_measurement_core env p homing s) (fun s6 =>
    (emit s6 .finished, none))

/-- do_measurement with its catch_exception wrapper: any exception raised
by the body is caught and reported through the failed signal; nothing is
re-raised. -/
def do_measurement (env : Env) (p : Params) (homing : Bool)
    (s : RunState) : RunState :=
  match do_measurement_body env p homing s with
  | (s', none) => s'
  | (s', some e) => emit s' (.failed e)

/-!
Trace observables and the phase invariant used to verify the
orchestrator claims.
-/

/-- Does an event report run failure. -/
def isFailedEv : Event → Bool
  | .failed _ => true
  | _ => false

/-- Does an event report run completion. -/
def isFinishedEv : Event → Bool
  | .finished => true
  | _ => false

/-- Is an event a checkpoint write. -/
def isCheckpointEv : Event → Bool
  | .checkpoint _ _ => true
  | _ => false

/-- The sampled (angle, value) pairs recorded in a trace, in order. -/
def readsOf (tr : List Event) : List (ℚ × ℚ) :=
  tr.filterMap (fun e => match e with
    | .sample a v => some (a, v)
    | _ => none)

/-- True when a trace contains neither a failed nor a finished signal. -/
def noSignal (tr : List Event) : Bool :=
  tr.all (fun e => !isFailedEv e && !isFinishedEv e)

/-- Motion-idle flag transition: commanding motion (home, move) clears
the flag, a busy poll reporting idle sets it, every other event keeps
it. -/
def idleFlag : Bool → Event → Bool
  | _, .home => false
  | _, .move _ => false
  | b, .poll busy => b || !busy
  | b, _ => b

/-- Motion gating of a trace: scanning with the motion-idle flag (false
at the start of a run), every sample event and every move command occurs
only while the flag is set, that is, only once a busy poll has reported
idle since the most recent motion command. -/
def motionGated : Bool → List Event → Bool
  | _, [] => true
  | idle, e :: tl =>
      (match e with
       | .sample _ _ => idle
       | .move _ => idle
       | _ => true) && motionGated (idleFlag idle e) tl

theorem readsOf_append (xs ys : List Event) :
    readsOf (xs ++ ys) = readsOf xs ++ readsOf ys := by
  simp [readsOf]

theorem noSignal_append (xs ys : List Event) :
    noSignal (xs ++ ys) = (noSignal xs && noSignal ys) := by
  simp [noSignal, List.all_append]

theorem motionGated_append (xs ys : List Event) (i : Bool) :
    motionGated i (xs ++ ys) =
      (motionGated i xs && motionGated (xs.foldl idleFlag i) ys) := by
  induction xs generalizing i with
  | nil => simp [motionGated]
  | cons x xs ih => simp [motionGated, ih, Bool.and_assoc]

theorem noSignal_counts (tr : List Event) (h : noSignal tr = true) :
    tr.countP isFailedEv = 0 ∧ tr.countP isFinishedEv = 0 := by
  rw [noSignal, List.all_eq_true] at h
  constructor <;> rw [List.countP_eq_zero] <;> intro e he
  · have := h e he
    simp only [Bool.and_eq_true, Bool.not_eq_eq_eq_not, Bool.not_true] at this
    simp [this.1]
  · have := h e he
    simp only [Bool.and_eq_true, Bool.not_eq_eq_eq_not, Bool.not_true] at this
    simp [this.2]

/-- Invariant of one orchestration phase started in state s: the phase
appends a delta to the trace, appends exactly the sampled pairs of that
delta to the measurement list (no pairs at all when nr is set), emits no
run-level signal, and, whenever the entry idle flag meets the needIdle
requirement, the delta is motion gated and on a non-raising exit the
idle flag after the delta is as described by fOut (none: kept, some b:
forced to b). -/
def PhaseOk (nr needIdle : Bool) (fOut : Option Bool) (s : RunState)
    (out : RunState × Option PyErr) : Prop :=
  ∃ Δ, out.1.tr = s.tr ++ Δ ∧ out.1.meas = s.meas ++ readsOf Δ ∧
    (nr = true → readsOf Δ = []) ∧ noSignal Δ = true ∧
    (∀ i, (needIdle = true → i = true) →
      motionGated i Δ = true ∧
      (out.2 = none → Δ.foldl idleFlag i = fOut.getD i))

/-- The no-op statement is a phase. -/
theorem PhaseOk.pure (nr n : Bool) (s : RunState) :
    PhaseOk nr n none s (s, none) :=
  ⟨[], by simp, by simp [readsOf], fun _ => rfl, rfl,
   fun i _ => ⟨rfl, fun _ => rfl⟩⟩

/-- Sequencing of phases through andThen: the combined phase needs an
idle entry exactly when the first does, provided the second phase can
only require idleness when the first phase guarantees or transmits it. -/
theorem PhaseOk.seq {nr1 nr2 n1 n2 : Bool} {f1 f2 : Option Bool}
    {s : RunState} {acc : RunState × Option PyErr}
    {g : RunState → RunState × Option PyErr}
    (h1 : PhaseOk nr1 n1 f1 s acc)
    (h2 : ∀ x, PhaseOk nr2 n2 f2 x (g x))
    (hcompat : n2 = true → f1 = some true ∨ (f1 = none ∧ n1 = true)) :
    PhaseOk (nr1 && nr2) n1 (f2.or f1) s (andThen acc g) := by
  rcases acc with ⟨s1, r1⟩
  rcases r1 with _ | e
  · obtain ⟨A, ht1, hm1, hr1, hs1, hg1⟩ := h1
    obtain ⟨B, ht2, hm2, hr2, hs2, hg2⟩ := h2 s1
    simp only [andThen]
    refine ⟨A ++ B, ?_, ?_, ?_, ?_, ?_⟩
    · rw [ht2]
      simp only at ht1
      rw [ht1, List.append_assoc]
    · rw [hm2]
      simp only at hm1
      rw [hm1, readsOf_append, List.append_assoc]
    · intro hnr
      rw [Bool.and_eq_true] at hnr
      rw [readsOf_append, hr1 hnr.1, hr2 hnr.2]
      rfl
    · rw [noSignal_append, hs1, hs2]
      rfl
    · intro i hi
      obtain ⟨hg1m, hg1f⟩ := hg1 i hi
      have hflag : A.foldl idleFlag i = f1.getD i := hg1f rfl
      have hi2 : n2 = true → A.foldl idleFlag i = true := by
        intro hn2
        rcases hcompat hn2 with hf | ⟨hf, hn1⟩
        · rw [hflag, hf]
          rfl
        · rw [hflag, hf]
          exact hi hn1
      obtain ⟨hg2m, hg2f⟩ := hg2 (A.foldl idleFlag i) hi2
      constructor
      · rw [motionGated_append, hg1m, hg2m]
        rfl
      · intro hnone
        rw [List.foldl_append, hg2f hnone]
        rcases f2 with _ | b
        · simp [hflag]
        · rfl
  · obtain ⟨A, ht1, hm1, hr1, hs1, hg1⟩ := h1
    simp only [andThen]
    refine ⟨A, ht1, hm1, ?_, hs1, ?_⟩
    · intro hnr
      rw [Bool.and_eq_true] at hnr
      exact hr1 hnr.1
    · intro i hi
      refine ⟨(hg1 i hi).1, ?_⟩
      intro hnone
      simp at hnone

theorem andThen_assoc (acc : RunState × Option PyErr)
    (f g : RunState → RunState × Option PyErr) :
    andThen (andThen acc f) g = andThen acc (fun x => andThen (f x) g) := by
  rcases acc with ⟨s, _ | e⟩ <;> simp [andThen]

theorem stage_enabled_phase (env : Env) (s : RunState) :
    PhaseOk true false none s (stage_enabled env s).1 := by
  unfold stage_enabled opCall
  rcases env.fail s.k with _ | e
  · exact ⟨[.enabledQ (env.enabledRes s.k)], by simp [tick, emit],
      by simp [tick, emit, readsOf], fun _ => by simp [readsOf],
      by simp [noSignal, isFailedEv, isFinishedEv],
      fun i _ => ⟨by simp [motionGated, idleFlag], fun _ => by simp [idleFlag]⟩⟩
  · exact ⟨[], by simp [tick], by simp [tick, readsOf], fun _ => rfl, rfl,
      fun i _ => ⟨rfl, fun h => Option.noConfusion h⟩⟩

theorem stage_enable_phase (env : Env) (s : RunState) :
    PhaseOk true false none s (stage_enable env s) := by
  unfold stage_enable opCall
  rcases env.fail s.k with _ | e
  · exact ⟨[.enableCmd], by simp [tick, emit],
      by simp [tick, emit, readsOf], fun _ => by simp [readsOf],
      by simp [noSignal, isFailedEv, isFinishedEv],
      fun i _ => ⟨by simp [motionGated, idleFlag], fun _ => by simp [idleFlag]⟩⟩
  · exact ⟨[], by simp [tick], by simp [tick, readsOf], fun _ => rfl, rfl,
      fun i _ => ⟨rfl, fun h => Option.noConfusion h⟩⟩

theorem stage_goto_home_phase (env : Env) (s : RunState) :
    PhaseOk true false (some false) s (stage_goto_home env s) := by
  unfold stage_goto_home opCall
  rcases env.fail s.k with _ | e
  · exact ⟨[.home], by simp [tick, emit],
      by simp [tick, emit, readsOf], fun _ => by simp [readsOf],
      by simp [noSignal, isFailedEv, isFinishedEv],
      fun i _ => ⟨by simp [motionGated, idleFlag], fun _ => by simp [idleFlag]⟩⟩
  · exact ⟨[], by simp [tick], by simp [tick, readsOf], fun _ => rfl, rfl,
      fun i _ => ⟨rfl, fun h => Option.noConfusion h⟩⟩

theorem stage_goto_position_phase (env : Env) (s : RunState) (pos : ℚ) :
    PhaseOk true true (some false) s (stage_goto_position env s pos) := by
  unfold stage_goto_position opCall
  rcases env.fail s.k with _ | e
  · refine ⟨[.move pos], by simp [tick, emit],
      by simp [tick, emit, readsOf], fun _ => by simp [readsOf],
      by simp [noSignal, isFailedEv, isFinishedEv], fun i hi => ?_⟩
    rw [hi rfl]
    exact ⟨by simp [motionGated, idleFlag], fun _ => by simp [idleFlag]⟩
  · exact ⟨[], by simp [tick], by simp [tick, readsOf], fun _ => rfl, rfl,
      fun i _ => ⟨rfl, fun h => Option.noConfusion h⟩⟩

theorem checkpoint_write_phase (p : Params) (ls : ℚ) (s : RunState) :
    PhaseOk true false none s (checkpoint_write p ls s) := by
  unfold checkpoint_write
  split
  · exact ⟨[.checkpoint s.t s.meas], by simp [emit],
      by simp [emit, readsOf], fun _ => by simp [readsOf],
      by simp [noSignal, isFailedEv, isFinishedEv],
      fun i _ => ⟨by simp [motionGated, idleFlag], fun _ => by simp [idleFlag]⟩⟩
  · exact PhaseOk.pure true false s

theorem wait_polls_phase (env : Env) (n : Nat) (s : RunState) :
    PhaseOk true false (some true) s (wait_polls env n s) := by
  induction n generalizing s with
  | zero =>
      unfold wait_polls
      rcases env.fail s.k with _ | e
      · exact ⟨[.poll false], by simp [tick, emit],
          by simp [tick, emit, readsOf], fun _ => by simp [readsOf],
          by simp [noSignal, isFailedEv, isFinishedEv],
          fun i _ => ⟨by simp [motionGated, idleFlag],
            fun _ => by simp [idleFlag]⟩⟩
      · exact ⟨[], by simp [tick], by simp [tick, readsOf], fun _ => rfl, rfl,
          fun i _ => ⟨rfl, fun h => Option.noConfusion h⟩⟩
  | succ n ih =>
      unfold wait_polls
      rcases env.fail s.k with _ | e
      · obtain ⟨B, ht, hm, hr, hs, hg⟩ :=
          ih { tick env (emit s (.poll true)) with
            t := (tick env (emit s (.poll true))).t + env.poll_interval }
        refine ⟨.poll true :: B, ?_, ?_, ?_, ?_, ?_⟩
        · rw [ht]
          simp [tick, emit]
        · rw [hm]
          simp [tick, emit, readsOf]
        · intro h
          have hB := hr h
          simp [readsOf] at hB ⊢
          exact hB
        · simp [noSignal, isFailedEv, isFinishedEv] at hs ⊢
          exact hs
        · intro i hi
          obtain ⟨hgm, hgf⟩ := hg i hi
          refine ⟨?_, fun hnone => ?_⟩
          · simp [motionGated, idleFlag, hgm]
          · simp only [List.foldl_cons]
            rw [show idleFlag i (.poll true) = i by simp [idleFlag]]
            exact hgf hnone
      · exact ⟨[], by simp [tick], by simp [tick, readsOf], fun _ => rfl, rfl,
          fun i _ => ⟨rfl, fun h => Option.noConfusion h⟩⟩

theorem wait_until_done_phase (env : Env) (s : RunState) :
    PhaseOk true false (some true) s (wait_until_done env s) := by
  unfold wait_until_done
  obtain ⟨B, ht, hm, hr, hs, hg⟩ :=
    wait_polls_phase env (env.busyCount s.w) { s with w := s.w + 1 }
  exact ⟨B, by rw [ht], by rw [hm], hr, hs, hg⟩

theorem measure_loop_phase (env : Env) (p : Params) (a : ℚ) (n : Nat)
    (s : RunState) : PhaseOk false true none s (measure_loop env p a n s) := by
  induction n generalizing s with
  | zero => exact PhaseOk.pure false true s
  | succ n ih =>
      unfold measure_loop daq_read_channel
      rcases env.fail s.k with _ | e
      · have key : ∀ s3 : RunState,
            s3.tr = s.tr ++ [Event.sample a (env.daqRes s.k)] →
            s3.meas = s.meas ++ [(a, env.daqRes s.k)] →
            PhaseOk false true none s (measure_loop env p a n s3) := by
          intro s3 h3t h3m
          obtain ⟨B, ht, hm, hr, hs, hg⟩ := ih s3
          refine ⟨.sample a (env.daqRes s.k) :: B, ?_, ?_,
            fun h => Bool.noConfusion h, ?_, ?_⟩
          · rw [ht, h3t]
            simp
          · rw [hm, h3m]
            simp [readsOf]
          · simp [noSignal, isFailedEv, isFinishedEv] at hs ⊢
            exact hs
          · intro i hi
            have hit := hi rfl
            obtain ⟨hgm, hgf⟩ := hg i hi
            rw [hit] at hgm
            refine ⟨by simp [motionGated, idleFlag, hit, hgm], fun hnone => ?_⟩
            simp only [List.foldl_cons]
            rw [show idleFlag i (.sample a (env.daqRes s.k)) = i by
              simp [idleFlag]]
            exact hgf hnone
        apply key
        · split <;> simp [tick, emit]
        · split <;> simp [tick, emit]
      · exact ⟨[], by simp [tick], by simp [tick, readsOf], fun _ => rfl, rfl,
          fun i _ => ⟨rfl, fun h => Option.noConfusion h⟩⟩

theorem andThen_of_err (acc : RunState × Option PyErr)
    (f : RunState → RunState × Option PyErr) (e : PyErr)
    (h : acc.2 = some e) : andThen acc f = acc := by
  rcases acc with ⟨s1, r⟩
  simp only at h
  rw [h]
  rfl

theorem andThen_of_ok (acc : RunState × Option PyErr)
    (f : RunState → RunState × Option PyErr)
    (h : acc.2 = none) : andThen acc f = f acc.1 := by
  rcases acc with ⟨s1, r⟩
  simp only at h
  rw [h]
  rfl

theorem angle_step_phase (env : Env) (p : Params) (ls : ℚ) (s : RunState)
    (a : ℚ) : PhaseOk false true (some true) s (angle_step env p ls s a) := by
  unfold angle_step
  have h3 : ∀ y, PhaseOk false true none y
      (andThen (measure_loop env p a p.nb_measurements y)
        (fun s3 => checkpoint_write p ls s3)) := by
    intro y
    have := PhaseOk.seq (measure_loop_phase env p a p.nb_measurements y)
      (fun z => checkpoint_write_phase p ls z) (fun h => Bool.noConfusion h)
    simpa using this
  have h2 : ∀ x, PhaseOk false false (some true) x
      (andThen (wait_until_done env x) (fun s2 =>
        andThen (measure_loop env p a p.nb_measurements s2)
          (fun s3 => checkpoint_write p ls s3))) := by
    intro x
    have := PhaseOk.seq (wait_until_done_phase env x) h3
      (fun _ => Or.inl rfl)
    simpa using this
  have := PhaseOk.seq (stage_goto_position_phase env s (-a)) h2
    (fun h => Bool.noConfusion h)
  simpa using this

theorem foldl_sweep_step_err (env : Env) (p : Params) (ls : ℚ)
    (angles : List ℚ) (s1 : RunState) (e : PyErr) :
    angles.foldl (sweep_step env p ls) (s1, some e) = (s1, some e) := by
  induction angles with
  | nil => rfl
  | cons a rest ih => simpa [sweep_step] using ih

theorem sweep_loop_phase (env : Env) (p : Params) (ls : ℚ)
    (angles : List ℚ) (s : RunState) :
    PhaseOk false true (some true) s (sweep_loop env p ls angles s) := by
  induction angles generalizing s with
  | nil =>
      exact ⟨[], by simp [sweep_loop], by simp [sweep_loop, readsOf],
        fun _ => rfl, rfl,
        fun i hi => ⟨rfl, fun _ => by simp [hi rfl]⟩⟩
  | cons a rest ih =>
      have hstep : sweep_loop env p ls (a :: rest) s =
          andThen (angle_step env p ls s a)
            (fun x => sweep_loop env p ls rest x) := by
        unfold sweep_loop
        rw [List.foldl_cons]
        rcases hA : angle_step env p ls s a with ⟨x, _ | e⟩
        · simp [sweep_step, andThen, hA]
        · simp [sweep_step, andThen, hA, foldl_sweep_step_err]
      rw [hstep]
      have := PhaseOk.seq (angle_step_phase env p ls s a) (fun x => ih x)
        (fun _ => Or.inl rfl)
      simpa using this

theorem sweep_phase_spec (env : Env) (p : Params) (x : RunState) :
    ∃ Δ, (sweep_phase env p x).1.tr = x.tr ++ Δ ∧
      (sweep_phase env p x).1.meas = readsOf Δ ∧
      noSignal Δ = true ∧
      (∀ i, i = true → motionGated i Δ = true) := by
  unfold sweep_phase
  obtain ⟨B, ht, hm, hr, hs, hg⟩ := sweep_loop_phase env p
    { x with meas := ([] : List (ℚ × ℚ)) }.t
    (measurement_angles p.start_angle p.end_angle p.increment_angle)
    { x with meas := [] }
  exact ⟨B, by simpa using ht, by simpa using hm, hs,
    fun i hi => (hg i (fun _ => hi)).1⟩

theorem do_measurement_core_spec (env : Env) (p : Params) (homing : Bool)
    (s : RunState) :
    ∃ Δ, (do_measurement_core env p homing s).1.tr = s.tr ++ Δ ∧
      noSignal Δ = true ∧
      ((do_measurement_core env p homing s).1.meas = readsOf Δ ∨
       ((do_measurement_core env p homing s).1.meas = s.meas ∧
        readsOf Δ = [])) ∧
      (∀ i, motionGated i Δ = true) := by
  have hifen : ∀ x, PhaseOk true false none x
      (if (stage_enabled env s).2 then (x, none) else stage_enable env x) := by
    intro x
    cases hb : (stage_enabled env s).2
    · simpa [hb] using stage_enable_phase env x
    · simpa [hb] using PhaseOk.pure true false x
  have hifhw : ∀ y, PhaseOk true false (some true) y
      (andThen (if homing then stage_goto_home env y else (y, none))
        (fun s3 => wait_until_done env s3)) := by
    intro y
    cases homing
    · have := PhaseOk.seq (PhaseOk.pure true false y)
        (fun z => wait_until_done_phase env z) (fun h => Bool.noConfusion h)
      simpa using this
    · have := PhaseOk.seq (stage_goto_home_phase env y)
        (fun z => wait_until_done_phase env z) (fun h => Bool.noConfusion h)
      simpa using this
  have h23 : ∀ x, PhaseOk true false (some true) x
      (andThen (if (stage_enabled env s).2 then (x, none)
          else stage_enable env x) (fun s2 =>
        andThen (if homing then stage_goto_home env s2 else (s2, none))
          (fun s3 => wait_until_done env s3))) := by
    intro x
    have := PhaseOk.seq (hifen x) hifhw (fun h => Bool.noConfusion h)
    simpa using this
  have hpre : PhaseOk true false (some true) s
      (andThen (stage_enabled env s).1 (fun s1 =>
        andThen (if (stage_enabled env s).2 then (s1, none)
            else stage_enable env s1) (fun s2 =>
          andThen (if homing then stage_goto_home env s2 else (s2, none))
            (fun s3 => wait_until_done env s3)))) := by
    have := PhaseOk.seq (stage_enabled_phase env s) h23
      (fun h => Bool.noConfusion h)
    simpa using this
  have hsplit : do_measurement_core env p homing s =
      andThen (andThen (stage_enabled env s).1 (fun s1 =>
        andThen (if (stage_enabled env s).2 then (s1, none)
            else stage_enable env s1) (fun s2 =>
          andThen (if homing then stage_goto_home env s2 else (s2, none))
            (fun s3 => wait_until_done env s3))))
        (fun s4 => sweep_phase env p s4) := by
    unfold do_measurement_core
    simp only [andThen_assoc]
  rw [hsplit]
  obtain ⟨A, htA, hmA, hrA, hsA, hgA⟩ := hpre
  rcases hr2 : (andThen (stage_enabled env s).1 (fun s1 =>
      andThen (if (stage_enabled env s).2 then (s1, none)
          else stage_enable env s1) (fun s2 =>
        andThen (if homing then stage_goto_home env s2 else (s2, none))
          (fun s3 => wait_until_done env s3)))).2 with _ | e
  · rw [andThen_of_ok _ _ hr2]
    obtain ⟨B, htB, hmB, hsB, hgB⟩ := sweep_phase_spec env p _
    refine ⟨A ++ B, ?_, ?_, ?_, ?_⟩
    · rw [htB, htA, List.append_assoc]
    · rw [noSignal_append, hsA, hsB]
      rfl
    · left
      rw [hmB, readsOf_append, hrA rfl]
      simp
    · intro i
      rw [motionGated_append]
      obtain ⟨hgm, hgf⟩ := hgA i (fun h => Bool.noConfusion h)
      rw [hgm]
      rw [hgf hr2]
      simpa using hgB true rfl
  · rw [andThen_of_err _ _ e hr2]
    refine ⟨A, htA, hsA, Or.inr ⟨?_, hrA rfl⟩,
      fun i => (hgA i (fun h => Bool.noConfusion h)).1⟩
    rw [hmA, hrA rfl]
    simp

/-- C1: in every sweep run, after issuing home (when homing is requested)
and after each move command, the orchestrator blocks in the busy-poll
wait (wait_until_done, modelled from the spec as polling isBusy at a
fixed short interval) until a poll reports idle, before taking any
reading at that angle.  Encoded through motion gating: scanning the whole
run trace with the motion-idle flag, every sample event and every move
command occurs only once a busy poll has reported idle since the most
recent home or move; this holds for every environment (any poll counts,
any injected collaborator failures, both homing modes). -/
theorem C1_wait_before_reading (env : Env) (p : Params) (homing : Bool)
    (t0 : ℚ) :
    motionGated false (do_measurement env p homing (initRun t0)).tr = true := by
  obtain ⟨A, htr, hns, hmeas, hgate⟩ :=
    do_measurement_core_spec env p homing (initRun t0)
  have htr0 : (do_measurement_core env p homing (initRun t0)).1.tr = A := by
    simpa [initRun] using htr
  unfold do_measurement do_measurement_body
  rcases hcc : do_measurement_core env p homing (initRun t0) with ⟨s6, r6⟩
  rw [hcc] at htr0
  simp only at htr0
  rcases r6 with _ | e
  · simp only [andThen, emit]
    rw [htr0, motionGated_append, hgate false]
    simp [motionGated]
  · simp only [andThen, emit]
    rw [htr0, motionGated_append, hgate false]
    simp [motionGated]

/-- C2: whenever the stage or sampling collaborator raises during steps
one to five, the run aborts and emits exactly one failed signal carrying
the originating error, no finished signal, and the measurement list holds
exactly the samples of the emitted sample-added events, so the partial
results collected before the failure remain intact and retrievable. -/
theorem C2_failed_run (env : Env) (p : Params) (homing : Bool) (t0 : ℚ)
    (e : PyErr)
    (h : (do_measurement_body env p homing (initRun t0)).2 = some e) :
    (do_measurement env p homing (initRun t0)).tr.countP isFailedEv = 1 ∧
    (do_measurement env p homing (initRun t0)).tr.countP isFinishedEv = 0 ∧
    (do_measurement env p homing (initRun t0)).tr.getLast? =
      some (.failed e) ∧
    (do_measurement env p homing (initRun t0)).meas =
      readsOf (do_measurement env p homing (initRun t0)).tr := by
  obtain ⟨A, htr, hns, hmeas, hgate⟩ :=
    do_measurement_core_spec env p homing (initRun t0)
  have hr : (do_measurement_core env p homing (initRun t0)).2 = some e := by
    unfold do_measurement_body at h
    rcases hc : (do_measurement_core env p homing (initRun t0)).2 with _ | e2
    · rw [andThen_of_ok _ _ hc] at h
      simp [emit] at h
    · rw [andThen_of_err _ _ e2 hc] at h
      rw [hc] at h
      exact h
  have hbody : do_measurement_body env p homing (initRun t0) =
      do_measurement_core env p homing (initRun t0) := by
    unfold do_measurement_body
    exact andThen_of_err _ _ e hr
  have htr0 : (do_measurement_core env p homing (initRun t0)).1.tr = A := by
    simpa [initRun] using htr
  have hms : (do_measurement_core env p homing (initRun t0)).1.meas =
      readsOf A := by
    rcases hmeas with hm | ⟨hm, hrd⟩
    · exact hm
    · rw [hm, hrd]
      simp [initRun]
  unfold do_measurement
  rw [hbody]
  rcases hcc : do_measurement_core env p homing (initRun t0) with ⟨s6, r6⟩
  rw [hcc] at hr htr0 hms
  simp only at hr htr0 hms
  rw [hr]
  simp only [emit]
  obtain ⟨hcf, hcfin⟩ := noSignal_counts A hns
  refine ⟨?_, ?_, ?_, ?_⟩
  · rw [htr0, List.countP_append, hcf]
    simp [isFailedEv]
  · rw [htr0, List.countP_append, hcfin]
    simp [isFinishedEv]
  · rw [htr0]
    exact List.getLast?_concat _
  · rw [htr0, hms, readsOf_append]
    simp [readsOf]

/-- An environment in which every collaborator call succeeds, the motor
reports enabled, the stage is never busy, all readings are zero, and the
wall-clock durations are zero except for the first angle's reading (one
and a half seconds) and the second angle's reading (half a second). -/
def envC4 : Env :=
  ⟨fun _ => none, fun _ => true, fun _ => 0, fun _ => 0,
   fun k => if k = 4 then 3/2 else if k = 7 then 1/2 else 0, 0⟩

/-- Sweep parameters: angles zero and one, one reading per angle, no
inter-sample delay, a checkpoint path configured. -/
def pC4 : Params := ⟨0, 1, 1, 1, 0, true⟩

/-- The angle sequence at start zero, end one, increment one. -/
theorem measurement_angles_0_1_1 : measurement_angles 0 1 1 = [0, 1] := by
  have hc : (⌈((1 + 1 / 10 - 0) / 1 : ℚ)⌉ : ℤ) = 2 := by
    norm_num [Int.ceil_eq_iff]
  unfold measurement_angles np_arange
  rw [hc]
  rw [show (2 : ℤ).toNat = 2 from rfl, show List.range 2 = [0, 1] from rfl]
  norm_num

/-- C4: the claim says a checkpoint is written if and only if at least
one second has elapsed since the last checkpoint write, the checkpoint
time then being updated so that checkpoints happen at most about once per
second.  The source never updates last_save_time after a write (it is set
once, before the loop), so once one second has elapsed since the loop
start every angle writes a checkpoint: in this run the two checkpoint
writes happen at one and a half seconds and at two seconds, only half a
second apart, the second of which the claim forbids.  The variable name
last_save_time and the one-second guard make the rate-limiting intent
plain, so this is recorded as a bug in the code. -/
theorem C4_checkpoint_not_rate_limited :
    (do_measurement envC4 pC4 false (initRun 0)).tr =
      [.enabledQ true, .poll false, .move 0, .poll false, .sample 0 0,
       .checkpoint (3/2) [(0, 0)], .move (-1), .poll false, .sample 1 0,
       .checkpoint 2 [(0, 0), (1, 0)], .finished] ∧
    (do_measurement envC4 pC4 false (initRun 0)).tr.countP isCheckpointEv
      = 2 ∧
    (2 : ℚ) - 3/2 < 1 := by
  have htr : (do_measurement envC4 pC4 false (initRun 0)).tr =
      [.enabledQ true, .poll false, .move 0, .poll false, .sample 0 0,
       .checkpoint (3/2) [(0, 0)], .move (-1), .poll false, .sample 1 0,
       .checkpoint 2 [(0, 0), (1, 0)], .finished] := by
    norm_num [do_measurement, do_measurement_body, do_measurement_core,
      sweep_phase, sweep_loop, sweep_step, angle_step, measure_loop,
      checkpoint_write, stage_enabled, stage_enable, stage_goto_home,
      stage_goto_position, daq_read_channel, wait_until_done, wait_polls,
      opCall, andThen, tick, emit, initRun, envC4, pC4,
      measurement_angles_0_1_1]
  refine ⟨htr, ?_, by norm_num⟩
  rw [htr]
  simp [isCheckpointEv]

/-- An environment whose ninth collaborator call (the second reading of
the second angle run) raises a transport error; every reading returns
seven. -/
def envC2 : Env :=
  ⟨fun k => if k = 8 then some (.ioError "read") else none,
   fun _ => true, fun _ => 7, fun _ => 0, fun _ => 0, 0⟩

/-- Sweep parameters: angles zero and one, two readings per angle, no
inter-sample delay, no checkpoint path. -/
def pC2 : Params := ⟨0, 1, 1, 2, 0, false⟩

/-- Witness for C2: a run that fails at the first reading of the second
angle emits exactly one failed signal carrying the transport error, no
finished signal, and keeps the two samples collected at the first
angle. -/
theorem C2_failed_run_witness :
    (do_measurement_body envC2 pC2 false (initRun 0)).2 =
      some (.ioError "read") ∧
    (do_measurement envC2 pC2 false (initRun 0)).meas = [(0, 7), (0, 7)] ∧
    ((do_measurement envC2 pC2 false (initRun 0)).tr.countP isFailedEv = 1 ∧
     (do_measurement envC2 pC2 false (initRun 0)).tr.countP isFinishedEv
       = 0 ∧
     (do_measurement envC2 pC2 false (initRun 0)).tr.getLast? =
       some (.failed (.ioError "read")) ∧
     (do_measurement envC2 pC2 false (initRun 0)).meas =
       readsOf (do_measurement envC2 pC2 false (initRun 0)).tr) :=
  ⟨by norm_num [do_measurement_body, do_measurement_core,
      sweep_phase, sweep_loop, sweep_step, angle_step, measure_loop,
      checkpoint_write, stage_enabled, stage_enable, stage_goto_home,
      stage_goto_position, daq_read_channel, wait_until_done, wait_polls,
      opCall, andThen, tick, emit, initRun, envC2, pC2,
      measurement_angles_0_1_1],
   by norm_num [do_measurement, do_measurement_body, do_measurement_core,
      sweep_phase, sweep_loop, sweep_step, angle_step, measure_loop,
      checkpoint_write, stage_enabled, stage_enable, stage_goto_home,
      stage_goto_position, daq_read_channel, wait_until_done, wait_polls,
      opCall, andThen, tick, emit, initRun, envC2, pC2,
      measurement_angles_0_1_1],
   C2_failed_run envC2 pC2 false 0 (.ioError "read")
     (by norm_num [do_measurement_body, do_measurement_core,
       sweep_phase, sweep_loop, sweep_step, angle_step, measure_loop,
       checkpoint_write, stage_enabled, stage_enable, stage_goto_home,
       stage_goto_position, daq_read_channel, wait_until_done, wait_polls,
       opCall, andThen, tick, emit, initRun, envC2, pC2,
       measurement_angles_0_1_1])⟩

/-!
Helper lemmas shared by several claims.
-/

/-- Hit path of the cache: an entry younger than the time-to-live is
served unchanged, with no command on the wire and no state change. -/
theorem Stage.cached_command_hit (st : Stage) (conn : ESP301_Connection)
    (cmd : String) (now : ℚ) (v : Bytes) (ts : ℚ)
    (hc : st.connection = some conn)
    (hl : st.cache.lookup cmd = some (v, ts))
    (hy : now - ts < st.cache_timeout) :
    st.cached_command cmd now = ⟨.ok (some v), st, []⟩ := by
  simp [Stage.cached_command, hc, tsdGet, hl, not_le.mpr hy]

/-- Miss path of the cache: with no entry for the command and the clock at
or past the time-to-live, a round-trip happens and the response is stored
with the current timestamp. -/
theorem Stage.cached_command_miss (st : Stage) (conn : ESP301_Connection)
    (cmd : String) (now : ℚ)
    (hc : st.connection = some conn)
    (hl : st.cache.lookup cmd = none)
    (hy : st.cache_timeout ≤ now) :
    st.cached_command cmd now =
      ⟨.ok (some (conn.device cmd)),
        { st with cache := tsdSet st.cache cmd (conn.device cmd) now },
        [cmd]⟩ := by
  simp [Stage.cached_command, hc, tsdGet, hl]
  exact hy

/-- Expired path of the cache: an entry whose age has reached the
time-to-live is disregarded and a fresh round-trip is stored. -/
theorem Stage.cached_command_expired (st : Stage) (conn : ESP301_Connection)
    (cmd : String) (now : ℚ) (v : Bytes) (ts : ℚ)
    (hc : st.connection = some conn)
    (hl : st.cache.lookup cmd = some (v, ts))
    (hy : st.cache_timeout ≤ now - ts) :
    st.cached_command cmd now =
      ⟨.ok (some (conn.device cmd)),
        { st with cache := tsdSet st.cache cmd (conn.device cmd) now },
        [cmd]⟩ := by
  simp [Stage.cached_command, hc, tsdGet, hl]
  exact hy

/-- A demonstration connection whose device answers every command with
the ASCII byte for the digit one. -/
def connDemo : ESP301_Connection := ⟨fun _ => [49], true⟩

/-- A bound stage with an empty response cache. -/
def stDemo : Stage := ⟨some connDemo, some 1, [], 1/10⟩

/-- A bound stage whose cache already holds a response to the busy
query. -/
def stDemoTS : Stage := ⟨some connDemo, some 1, [("TS", ([49], 0))], 1/10⟩

/-- C3: the claim states that every state-mutating command (enable,
disable, home, move, stop) completes without error and leaves the
corresponding cached query entry absent, whether or not the entry was
present beforehand.  The code contradicts this when the entry is absent:
TimeStampedDict overrides __getitem__ but not __delitem__, so the
eviction del raises KeyError.  On a bound stage with an empty cache,
stop() sends the stop command on the wire and then raises KeyError
evicting the absent busy entry, while on a stage with the entry present
it completes and the entry is absent afterwards — so the eviction intent
documented in the source comments fails exactly on the absent-entry
case and the claim is recorded as a code bug. -/
theorem C3_eviction_keyError :
    stDemo.stop.result = .error (.keyError "TS") ∧
    stDemo.stop.sent = ["1ST"] ∧
    stDemoTS.stop.result = .ok () ∧
    stDemoTS.stop.stage.cache.lookup "TS" = none :=
  ⟨rfl, rfl, rfl, rfl⟩

/-- C5: a query re-issued while its cache entry is younger than the
time-to-live returns the identical cached value with no transport
round-trip; an absent or expired entry triggers a fresh round-trip whose
response is stored with a new timestamp and returned.  The statement is
over an arbitrary command string and so instantiates to all four cached
queries (is-enabled, is-busy, position, velocity), which all go through
Stage.cached_command. -/
theorem C5_cache_ttl (st : Stage) (conn : ESP301_Connection) (cmd : String)
    (now : ℚ) (hc : st.connection = some conn) :
    (∀ v ts, st.cache.lookup cmd = some (v, ts) →
      now - ts < st.cache_timeout →
      st.cached_command cmd now = ⟨.ok (some v), st, []⟩) ∧
    (st.cache.lookup cmd = none → st.cache_timeout ≤ now →
      st.cached_command cmd now =
        ⟨.ok (some (conn.device cmd)),
          { st with cache := tsdSet st.cache cmd (conn.device cmd) now },
          [cmd]⟩) ∧
    (∀ v ts, st.cache.lookup cmd = some (v, ts) →
      st.cache_timeout ≤ now - ts →
      st.cached_command cmd now =
        ⟨.ok (some (conn.device cmd)),
          { st with cache := tsdSet st.cache cmd (conn.device cmd) now },
          [cmd]⟩) :=
  ⟨fun v ts hl hy => Stage.cached_command_hit st conn cmd now v ts hc hl hy,
   fun hl hy => Stage.cached_command_miss st conn cmd now hc hl hy,
   fun v ts hl hy =>
     Stage.cached_command_expired st conn cmd now v ts hc hl hy⟩

/-- A bound stage holding a cached busy response captured at time ten. -/
def stTTL : Stage := ⟨some connDemo, some 1, [("TS", ([49], 10))], 1/10⟩

/-- Witness for C5: at age one twentieth (below the TTL of one tenth) the
cached busy value is served unchanged with nothing sent; at age one (past
the TTL) a fresh round-trip happens and is stored. -/
theorem C5_cache_ttl_witness :
    stTTL.connection = some connDemo ∧
    stTTL.cache.lookup "TS" = some ([49], 10) ∧
    (10 + 1/20 : ℚ) - 10 < stTTL.cache_timeout ∧
    stTTL.cached_command "TS" (10 + 1/20) = ⟨.ok (some [49]), stTTL, []⟩ ∧
    stTTL.cache_timeout ≤ (11 : ℚ) - 10 ∧
    stTTL.cached_command "TS" 11 =
      ⟨.ok (some (connDemo.device "TS")),
        { stTTL with cache := tsdSet stTTL.cache "TS" (connDemo.device "TS") 11 },
        ["TS"]⟩ := by
  refine ⟨rfl, rfl, by norm_num [stTTL], ?_, by norm_num [stTTL], ?_⟩
  · exact (C5_cache_ttl stTTL connDemo "TS" (10 + 1/20) rfl).1 [49] 10 rfl
      (by norm_num [stTTL])
  · exact (C5_cache_ttl stTTL connDemo "TS" 11 rfl).2.2 [49] 10 rfl
      (by norm_num [stTTL])

/-- A connection whose device reports the axis type ROT. -/
def connAxis : ESP301_Connection := ⟨fun _ => [82, 79, 84], true⟩

/-- A connected stage with no bound axis and a stale cached busy entry. -/
def stBindDemo : Stage := ⟨some connAxis, none, [("TS", ([49], 5))], 1/10⟩

/-- C7 counterexample: the claim states that a successful set_axis leaves
the response cache empty.  On a connected stage with a stale cached
entry, set_axis 2 succeeds and stores the axis but leaves the cache
exactly as it was — the source never touches the cache in set_axis. -/
theorem C7_counterexample :
    (stBindDemo.set_axis 2).result = .ok () ∧
    (stBindDemo.set_axis 2).stage.axis = some 2 ∧
    (stBindDemo.set_axis 2).stage.cache = stBindDemo.cache ∧
    stBindDemo.cache ≠ [] :=
  ⟨rfl, rfl, rfl, by simp [stBindDemo]⟩

/-- C7 (amended): for every axis number in range, with a connection open
and an identity probe that does not lower-case to unknown, set_axis
succeeds, stores the axis number, and leaves the response cache
unchanged (previously cached query responses are not invalidated). -/
theorem C7_amended (st : Stage) (conn : ESP301_Connection) (n : Int)
    (hc : st.connection = some conn) (h1 : 1 ≤ n) (h3 : n ≤ 3)
    (hid : bytesLower (conn.device (toString n ++ "ID?")) ≠ unknownBytes) :
    (st.set_axis n).result = .ok () ∧
    (st.set_axis n).stage.axis = some n.toNat ∧
    (st.set_axis n).stage.cache = st.cache := by
  simp [Stage.set_axis, hc, h1, h3, hid]

/-- Witness for C7: the amended statement applied to the demonstration
stage, whose probe answers ROT, at axis number two. -/
theorem C7_amended_witness :
    stBindDemo.connection = some connAxis ∧ (1 : Int) ≤ 2 ∧ (2 : Int) ≤ 3 ∧
    bytesLower (connAxis.device (toString (2 : Int) ++ "ID?")) ≠ unknownBytes ∧
    ((stBindDemo.set_axis 2).result = .ok () ∧
     (stBindDemo.set_axis 2).stage.axis = some (2 : Int).toNat ∧
     (stBindDemo.set_axis 2).stage.cache = stBindDemo.cache) :=
  ⟨rfl, by norm_num, by norm_num, by decide,
   C7_amended stBindDemo connAxis 2 rfl (by norm_num) (by norm_num) (by decide)⟩

/-- Discriminator for the InvalidArgument class (Python ValueError). -/
def isValueError {α : Type} : Except PyErr α → Bool
  | .error (.valueError _) => true
  | _ => false

/-- A stage with no connection. -/
def stNoConn : Stage := ⟨none, some 1, [("X", ([49], 0))], 1/10⟩

/-- C8 counterexample: with no connection open and the out-of-range axis
number seven, set_axis raises the NotReady-class RuntimeError about the
missing connection — not the InvalidArgument-class ValueError the claim
requires for every out-of-range axis number including when no connection
is open: the source checks the connection before the range. -/
theorem C8_counterexample :
    (stNoConn.set_axis 7).result =
      .error (.runtimeError "no connection set. cannot set the requested axis") ∧
    isValueError (stNoConn.set_axis 7).result = false :=
  ⟨rfl, rfl⟩

/-- C8 (amended): set_axis fails with the NotReady-class error whenever
no connection is open (for every axis number, in range or not); with a
connection open it fails with the InvalidArgument-class error for every
integer outside one to three; it fails with the DeviceNotFound-class
error when the probed identity lower-cases to unknown (all case
variations); and after every failure no axis is bound (the previous
binding is also cleared). -/
theorem C8_amended (st : Stage) (n : Int) :
    (st.connection = none →
      (st.set_axis n).result =
        .error (.runtimeError "no connection set. cannot set the requested axis")) ∧
    (∀ conn, st.connection = some conn → ¬(1 ≤ n ∧ n ≤ 3) →
      (st.set_axis n).result =
        .error (.valueError "axis number must be between 1 and 3")) ∧
    (∀ conn, st.connection = some conn → 1 ≤ n → n ≤ 3 →
      bytesLower (conn.device (toString n ++ "ID?")) = unknownBytes →
      (st.set_axis n).result = .error (.runtimeError "No such axis available")) ∧
    (∀ e, (st.set_axis n).result = .error e →
      (st.set_axis n).stage.axis = none) := by
  refine ⟨fun hc => by simp [Stage.set_axis, hc],
          fun conn hc hr => by simp [Stage.set_axis, hc, hr],
          fun conn hc h1 h3 hu => by simp [Stage.set_axis, hc, h1, h3, hu],
          fun e he => ?_⟩
  rcases h : st.connection with _ | conn
  · simp [Stage.set_axis, h]
  · by_cases hr : 1 ≤ n ∧ n ≤ 3
    · by_cases hu : bytesLower (conn.device (toString n ++ "ID?")) = unknownBytes
      · simp [Stage.set_axis, h, hr, hu]
      · exfalso
        revert he
        simp [Stage.set_axis, h, hr, hu]
    · simp [Stage.set_axis, h, hr]

/-- A connection whose device reports the mixed-case identity Unknown. -/
def connUnknown : ESP301_Connection :=
  ⟨fun _ => [85, 110, 107, 110, 111, 119, 110], true⟩

/-- A connected stage whose device reports Unknown for every axis. -/
def stUnknown : Stage := ⟨some connUnknown, none, [], 1/10⟩

/-- Witness for C8: the amended statement exercised on all three failure
classes, including the mixed-case Unknown identity response. -/
theorem C8_amended_witness :
    ((stBindDemo.set_axis 0).result =
      .error (.valueError "axis number must be between 1 and 3")) ∧
    ((stNoConn.set_axis 2).result =
      .error (.runtimeError "no connection set. cannot set the requested axis")) ∧
    ((stUnknown.set_axis 1).result =
      .error (.runtimeError "No such axis available")) :=
  ⟨(C8_amended stBindDemo 0).2.1 connAxis rfl (by norm_num),
   (C8_amended stNoConn 2).1 rfl,
   (C8_amended stUnknown 1).2.2.1 connUnknown rfl (by norm_num) (by norm_num)
     (by decide)⟩

/-- Stage.stop never changes the axis binding or the connection. -/
theorem Stage.stop_preserves (st : Stage) :
    st.stop.stage.axis = st.axis ∧ st.stop.stage.connection = st.connection := by
  unfold Stage.stop
  rcases h : st.connection_check with _ | e
  · rcases hd : tsdDel st.cache "TS" with e | c <;> simp [h, hd]
  · simp [h]

/-- Stage.enable never changes the axis binding or the connection. -/
theorem Stage.enable_preserves (st : Stage) (b : Bool) :
    (st.enable b).stage.axis = st.axis ∧
    (st.enable b).stage.connection = st.connection := by
  unfold Stage.enable
  rcases h : st.connection_check with _ | e
  · rcases hd : tsdDel st.cache (toString st.axisD ++ "MO?") with e | c <;>
      simp [h, hd]
  · simp [h]

/-- Stage.close on a stage with no bound axis: the stop attempt fails the
connection check with a RuntimeError, which the except clause suppresses,
so close completes without error, the cache is untouched, and the finally
block leaves no axis and a closed serial port. -/
theorem Stage.close_ok_of_axis_none (st : Stage) (h : st.axis = none) :
    st.close.result = .ok () ∧ st.close.stage.cache = st.cache ∧
    st.close.stage.axis = none ∧
    st.close.stage.connection = st.connection.map ESP301_Connection.close := by
  rcases hc : st.connection with _ | conn <;>
    simp [Stage.close, Stage.stop, Stage.connection_check, hc, h]

/-- C9 (amended): close always clears the axis binding and closes the
serial port while keeping the connection object in place; errors of the
RuntimeError class raised by its own stop and disable attempts are
suppressed — in particular close on a client with no bound axis completes
without error and leaves the cache untouched — and closing the
already-closed client again completes without error.  (Exceptions of
other classes raised by the stop or disable attempt, such as the KeyError
of the counterexample, propagate out of close, and neither the connection
reference nor the cache is cleared.) -/
theorem C9_amended (st : Stage) (h0 : st.axis ≠ some 0) :
    st.close.stage.axis = none ∧
    st.close.stage.connection = st.connection.map ESP301_Connection.close ∧
    (st.axis = none →
      st.close.result = .ok () ∧ st.close.stage.cache = st.cache) ∧
    st.close.stage.close.result = .ok () := by
  obtain ⟨ha1, hc1⟩ := Stage.stop_preserves st
  obtain ⟨ha2, hc2⟩ := Stage.enable_preserves st.stop.stage false
  have hfin : st.close.stage.axis = none ∧
      st.close.stage.connection = st.connection.map ESP301_Connection.close := by
    rcases hr : st.stop.result with e | u
    · constructor
      · simp only [Stage.close, hr, ha1]
        rcases hx : st.axis with _ | (_ | m)
        · rfl
        · exact absurd hx h0
        · rfl
      · simp [Stage.close, hr, hc1]
    · constructor
      · simp only [Stage.close, hr, Stage.disable, Bool.not_true, ha2, ha1]
        rcases hx : st.axis with _ | (_ | m)
        · rfl
        · exact absurd hx h0
        · rfl
      · simp [Stage.close, hr, Stage.disable, Bool.not_true, hc2, hc1]
  refine ⟨hfin.1, hfin.2, fun hax => ?_, ?_⟩
  · obtain ⟨r1, r2, _, _⟩ := Stage.close_ok_of_axis_none st hax
    exact ⟨r1, r2⟩
  · exact (Stage.close_ok_of_axis_none st.close.stage hfin.1).1

/-- A client that has already released its axis: connection present, no
axis bound, one stale cache entry. -/
def stClosed : Stage := ⟨some connDemo, none, [("X", ([49], 0))], 1/10⟩

/-- C9 counterexample: on a bound stage with an empty cache, close() does
not suppress the KeyError its own stop() raises while evicting the absent
busy entry (the except clause only catches RuntimeError), so close itself
raises after having sent the stop command. -/
theorem C9_counterexample :
    stDemo.close.result = .error (.keyError "TS") ∧
    stDemo.close.sent = ["1ST"] :=
  ⟨rfl, rfl⟩

/-- Witness for C9: the amended statement applied to a connected client
with no bound axis and a non-empty cache. -/
theorem C9_amended_witness :
    stClosed.axis ≠ some 0 ∧
    (stClosed.close.stage.axis = none ∧
     stClosed.close.stage.connection =
       stClosed.connection.map ESP301_Connection.close ∧
     (stClosed.axis = none →
       stClosed.close.result = .ok () ∧
       stClosed.close.stage.cache = stClosed.cache) ∧
     stClosed.close.stage.close.result = .ok ()) :=
  ⟨by simp [stClosed], C9_amended stClosed (by simp [stClosed])⟩

/-- A connection whose device answers every command with a single zero
byte. -/
def connZero : ESP301_Connection := ⟨fun _ => [0], true⟩

/-- A bound stage on the all-zero-byte device. -/
def stZero : Stage := ⟨some connZero, some 1, [], 1/10⟩

/-- C10 counterexample: the claim states enabled() returns True for every
non-empty response.  The response consisting of one zero byte is
non-empty, yet its big-endian integer value is zero, so enabled()
returns False. -/
theorem C10_counterexample :
    connZero.device "1MO?" = [0] ∧ ([0] : Bytes) ≠ [] ∧
    (stZero.enabled 1).result = .ok false := by
  refine ⟨rfl, by simp, ?_⟩
  have h := Stage.cached_command_miss stZero connZero
    (toString stZero.axisD ++ "MO?") 1 rfl rfl (by norm_num [stZero])
  have hchk : stZero.connection_check = none := rfl
  simp [Stage.enabled, hchk, h, connZero, bytesToNat]

/-- C10 (amended): enabled() converts the served response through
big-endian integer truthiness: it returns True exactly when the response
bytes encode a nonzero integer.  In particular the ASCII digit response
for zero (byte value forty-eight, denoting a disabled motor) yields True,
the empty response (a timed-out read) yields False — and so does any
non-empty all-zero-byte response, which is where the claim as stated
fails. -/
theorem C10_amended (st : Stage) (conn : ESP301_Connection) (a : Nat)
    (now : ℚ) (hc : st.connection = some conn) (ha : st.axis = some a) :
    (∀ v ts, st.cache.lookup (toString a ++ "MO?") = some (v, ts) →
      now - ts < st.cache_timeout →
      (st.enabled now).result = .ok (bytesToNat v != 0)) ∧
    (st.cache.lookup (toString a ++ "MO?") = none →
      st.cache_timeout ≤ now →
      (st.enabled now).result =
        .ok (bytesToNat (conn.device (toString a ++ "MO?")) != 0)) ∧
    bytesToNat [48] = 48 ∧ bytesToNat [] = 0 := by
  have hax : st.axisD = a := by simp [Stage.axisD, ha]
  have hchk : st.connection_check = none := by
    simp [Stage.connection_check, hc, ha]
  refine ⟨fun v ts hl hy => ?_, fun hl hy => ?_,
    by simp [bytesToNat], by simp [bytesToNat]⟩
  · have h := Stage.cached_command_hit st conn (toString a ++ "MO?") now v ts
      hc hl hy
    simp [Stage.enabled, hchk, hax, h]
  · have h := Stage.cached_command_miss st conn (toString a ++ "MO?") now
      hc hl hy
    simp [Stage.enabled, hchk, hax, h]

/-- The angle sequence at start zero, end ten, increment three: the end
angle ten is not produced, because the remainder one exceeds the
tolerance of three tenths. -/
theorem measurement_angles_0_10_3 : measurement_angles 0 10 3 = [0, 3, 6, 9] := by
  have hc : (⌈((10 + 3 / 10 - 0) / 3 : ℚ)⌉ : ℤ) = 4 := by
    norm_num [Int.ceil_eq_iff]
  unfold measurement_angles np_arange
  rw [hc]
  rw [show (4 : ℤ).toNat = 4 from rfl, show List.range 4 = [0, 1, 2, 3] from rfl]
  norm_num

/-- The angle sequence at start zero, end ninety, increment thirty. -/
theorem measurement_angles_0_90_30 :
    measurement_angles 0 90 30 = [0, 30, 60, 90] := by
  have hc : (⌈((90 + 30 / 10 - 0) / 30 : ℚ)⌉ : ℤ) = 4 := by
    norm_num [Int.ceil_eq_iff]
  unfold measurement_angles np_arange
  rw [hc]
  rw [show (4 : ℤ).toNat = 4 from rfl, show List.range 4 = [0, 1, 2, 3] from rfl]
  norm_num

/-- C6 counterexample: the claim states the end angle is always included
(via the tolerance) even when the span is not an exact multiple of the
increment.  At start zero, end ten, increment three the sequence is
zero, three, six, nine: the end angle ten is absent, because numpy.arange
stops strictly below end plus increment over ten. -/
theorem C6_counterexample : (10 : ℚ) ∉ measurement_angles 0 10 3 := by
  rw [measurement_angles_0_10_3]
  norm_num

/-- C6 (amended): for increment above zero, every computed angle is of
the form start plus a natural multiple of the increment, no computed
angle reaches end plus increment over ten (the tolerance), and the end
angle is included whenever the span is an exact natural multiple of the
increment — but not otherwise, see the counterexample; in particular
start zero, end ninety, increment thirty yields exactly zero, thirty,
sixty, ninety. -/
theorem C6_amended (s e inc : ℚ) (hinc : 0 < inc) :
    (∀ a ∈ measurement_angles s e inc, ∃ k : ℕ, a = s + k * inc) ∧
    (∀ a ∈ measurement_angles s e inc, a < e + inc / 10) ∧
    (∀ k : ℕ, e = s + k * inc → e ∈ measurement_angles s e inc) ∧
    measurement_angles 0 90 30 = [0, 30, 60, 90] := by
  refine ⟨?_, ?_, ?_, measurement_angles_0_90_30⟩
  · intro a ha
    rcases List.mem_map.mp ha with ⟨k, hk, rfl⟩
    exact ⟨k, rfl⟩
  · intro a ha
    rcases List.mem_map.mp ha with ⟨k, hk, rfl⟩
    rw [List.mem_range] at hk
    have hk1 : (k : ℤ) < ⌈(e + inc / 10 - s) / inc⌉ := Int.lt_toNat.mp hk
    have hk2 : ((k : ℚ)) ≤ (⌈(e + inc / 10 - s) / inc⌉ : ℚ) - 1 := by
      have h : (k : ℤ) ≤ ⌈(e + inc / 10 - s) / inc⌉ - 1 := by omega
      exact_mod_cast h
    have hk3 : (⌈(e + inc / 10 - s) / inc⌉ : ℚ) - 1 <
        (e + inc / 10 - s) / inc := by
      have := Int.ceil_lt_add_one ((e + inc / 10 - s) / inc)
      linarith
    have hk4 : (k : ℚ) < (e + inc / 10 - s) / inc := lt_of_le_of_lt hk2 hk3
    have hk5 : (k : ℚ) * inc < e + inc / 10 - s := (lt_div_iff₀ hinc).mp hk4
    linarith
  · intro k hk
    apply List.mem_map.mpr
    refine ⟨k, ?_, by rw [hk]⟩
    rw [List.mem_range]
    apply Int.lt_toNat.mpr
    apply Int.lt_ceil.mpr
    rw [hk]
    push_cast
    rw [lt_div_iff₀ hinc]
    linarith

/-- Witness for C6: the amended statement applied at start zero, end
ninety, increment thirty, an increment above zero; the end angle ninety
is the exact multiple three of the increment and indeed appears. -/
theorem C6_amended_witness :
    (0 : ℚ) < 30 ∧ ((90 : ℚ) = 0 + (3 : ℕ) * 30 → (90 : ℚ) ∈ measurement_angles 0 90 30) ∧
    measurement_angles 0 90 30 = [0, 30, 60, 90] :=
  ⟨by norm_num, (C6_amended 0 90 30 (by norm_num)).2.2.1 3,
   (C6_amended 0 90 30 (by norm_num)).2.2.2⟩

/-- A bound stage whose cache holds the ASCII digit zero response to the
is-enabled query, captured at time ten. -/
def stEnCache : Stage := ⟨some connDemo, some 1, [("1MO?", ([48], 10))], 1/10⟩

/-- Witness for C10: on the cached ASCII digit zero response the query
reports True (its integer value is forty-eight), and on the fresh
all-zero-byte response it reports False. -/
theorem C10_amended_witness :
    stEnCache.cache.lookup (toString (1 : Nat) ++ "MO?") = some ([48], 10) ∧
    (10 + 1/20 : ℚ) - 10 < stEnCache.cache_timeout ∧
    (stEnCache.enabled (10 + 1/20)).result = .ok (bytesToNat [48] != 0) ∧
    (stZero.enabled 1).result =
      .ok (bytesToNat (connZero.device (toString (1 : Nat) ++ "MO?")) != 0) :=
  ⟨rfl, by norm_num [stEnCache],
   (C10_amended stEnCache connDemo 1 (10 + 1/20) rfl rfl).1 [48] 10 rfl
     (by norm_num [stEnCache]),
   (C10_amended stZero connZero 1 1 rfl rfl).2.1 rfl (by norm_num [stZero])⟩

end ReflectanceMeasure
